import Mathlib

/-!
Shallow embedding of the Expense Tracker API (`src/main.py`).

The program is a FastAPI CRUD service over a single SQLite table of
expense records.  We model the committed database state as a
`List Expense`; each endpoint handler becomes a pure function from the
store (and its request parameters) to `Except ApiError result`, where an
`Except.error` outcome means the handler raised before `db.commit()`
(uncommitted ORM mutations are rolled back when the session closes, so
the store is unchanged).  Monetary amounts are modelled as `ℚ` and
timestamps as `Nat`.  The `amount` column is a `Float` in the program:
the exact-rational model is faithful only where a response is compared
to the single summation that produced it, not for identities between
independently rounded double-precision sums.
-/

namespace ExpenseTracker

/-- Error outcomes visible to HTTP clients.
`badRequest` is `HTTPException(status_code=400, ...)` raised in a handler;
`notFound` is `HTTPException(status_code=404, ...)`;
`unprocessable` is a FastAPI/Pydantic request-validation failure (HTTP 422,
raised before the handler body runs);
`serverError` is an unhandled Python exception (HTTP 500). -/
inductive ApiError where
  | badRequest
  | notFound
  | unprocessable
  | serverError
deriving DecidableEq, Repr

/-- The `expenses` table row (`class Expense(Base)` in `main.py`):
`id`, `amount`, `description`, `category`, `date`, `created_at`. -/
structure Expense where
  id : Nat
  amount : ℚ
  description : String
  category : String
  date : Nat
  created_at : Nat
deriving DecidableEq, Repr

/-- `CATEGORIES` from `main.py`. -/
def CATEGORIES : List String :=
  ["Food", "Transportation", "Entertainment", "Shopping",
   "Bills", "Health", "Other"]

/-- Characters removed by Python's `str.strip()` (ASCII whitespace). -/
def isPySpace (c : Char) : Bool :=
  c = ' ' || c = '\t' || c = '\n' || c = '\x0d' || c = '\x0b' || c = '\x0c'

/-- Python `s.strip()`: drop leading and trailing whitespace. -/
def pyStrip (s : String) : String :=
  ⟨((s.toList.dropWhile isPySpace).reverse.dropWhile isPySpace).reverse⟩

/-- Python `s.lower()` (ASCII case folding, the only case relevant to the
category sentinel and `sort_order`). -/
def pyLower (s : String) : String :=
  ⟨s.toList.map Char.toLower⟩

/-- Request body of `POST /expenses` (`ExpenseCreate`). -/
structure ExpenseCreate where
  amount : ℚ
  description : String
  category : String
deriving DecidableEq, Repr

/-- Pydantic validation of `ExpenseBase`: `amount` has `gt=0`, `description`
has `min_length=1, max_length=200` (checked on the raw string, before any
stripping); `category` has no Pydantic constraint. -/
def validExpenseCreate (e : ExpenseCreate) : Bool :=
  decide (0 < e.amount) && decide (1 ≤ e.description.length)
    && decide (e.description.length ≤ 200)

/-- SQLite's rowid assignment for an `INTEGER PRIMARY KEY` without
`AUTOINCREMENT`: one more than the largest id currently in the table
(1 for an empty table). -/
def nextId (store : List Expense) : Nat :=
  (store.map (·.id)).foldr max 0 + 1

/-- `POST /expenses` (`create_expense`).  Pydantic validates the body
(422 on failure), the handler rejects categories outside `CATEGORIES`
(400), then inserts a row whose `description` is the stripped input and
whose `date`/`created_at` columns take their defaults at insert time
(`now`). -/
def create_expense (store : List Expense) (now : Nat) (req : ExpenseCreate) :
    Except ApiError (List Expense × Expense) :=
  if validExpenseCreate req then
    if req.category ∈ CATEGORIES then
      let e : Expense :=
        { id := nextId store
          amount := req.amount
          description := pyStrip req.description
          category := req.category
          date := now
          created_at := now }
      .ok (store ++ [e], e)
    else .error .badRequest
  else .error .unprocessable

/-- The committed store after a create call: unchanged when the handler
raises (nothing was committed). -/
def createdStore (store : List Expense) (now : Nat) (req : ExpenseCreate) :
    List Expense :=
  match create_expense store now req with
  | .ok (s, _) => s
  | .error _ => store

/-- The shared category-filter clause of `get_expenses`, `get_total` and
`delete_all_expenses`:
`if category and category.lower() != "all": if category not in CATEGORIES:
raise 400 ... query.filter(Expense.category == category)`.
A `None` or empty (falsy) category, or the case-insensitive sentinel
`"all"`, leaves the query unfiltered. -/
def categoryIsFilter (c : String) : Bool :=
  decide (c ≠ "") && decide (pyLower c ≠ "all")

def applyCategoryFilter (store : List Expense) (category : Option String) :
    Except ApiError (List Expense) :=
  match category with
  | some c =>
    if categoryIsFilter c then
      if c ∈ CATEGORIES then .ok (store.filter (fun e => e.category = c))
      else .error .badRequest
    else .ok store
  | none => .ok store

/-- The six mapped columns of the `Expense` model. -/
inductive SortColumn where
  | cid
  | amount
  | description
  | category
  | date
  | createdAt
deriving DecidableEq, Repr

/-- Result of `getattr(Expense, sort_by, Expense.date)`: either a mapped
column, or a class attribute that is not a column. -/
inductive SortAttr where
  | col (c : SortColumn)
  | nonColumn
deriving DecidableEq, Repr

/-- The six mapped column names of the `Expense` model. -/
def expenseColumnNames : List String :=
  ["id", "amount", "description", "category", "date", "created_at"]

/-- The set of non-column attribute names of the `Expense` class, an
environment fact of the `getattr` call.  A Python class's attribute set
is open-ended: beyond the six mapped columns the class has
`__tablename__` (assigned in the class body, `main.py` line 20),
`metadata` and `registry` inherited from the declarative base,
`__init__`, `__doc__`, `__module__` and every other attribute a class
carries — `getattr`'s default applies only to names that are not
attributes at all.  The embedding therefore takes this set as a
parameter, constrained only by what the source file itself shows:
`__tablename__` is such an attribute. -/
structure ClassAttrs where
  nonColumn : String → Bool
  tablename_mem : nonColumn "__tablename__" = true

/-- Python attribute lookup on the `Expense` class with default
`Expense.date` (`getattr(Expense, sort_by, Expense.date)`): a mapped
column name yields that column; any other attribute of the class yields
a non-column object (which has no `.desc()`/`.asc()`); only a name that
is no attribute at all falls back to the default `Expense.date`. -/
def getattrExpense (attrs : ClassAttrs) (name : String) : SortAttr :=
  if name = "id" then .col .cid
  else if name = "amount" then .col .amount
  else if name = "description" then .col .description
  else if name = "category" then .col .category
  else if name = "date" then .col .date
  else if name = "created_at" then .col .createdAt
  else if attrs.nonColumn name then .nonColumn
  else .col .date

/-- Lexicographic order on strings by code point (SQLite's default
`BINARY` collation on text). -/
def charListLe : List Char → List Char → Bool
  | [], _ => true
  | _ :: _, [] => false
  | a :: as, b :: bs => if a = b then charListLe as bs else decide (a < b)

def strLe (s t : String) : Bool := charListLe s.toList t.toList

/-- `ORDER BY col ASC` comparison for each column. -/
def colLe : SortColumn → Expense → Expense → Bool
  | .cid, a, b => decide (a.id ≤ b.id)
  | .amount, a, b => decide (a.amount ≤ b.amount)
  | .description, a, b => strLe a.description b.description
  | .category, a, b => strLe a.category b.category
  | .date, a, b => decide (a.date ≤ b.date)
  | .createdAt, a, b => decide (a.created_at ≤ b.created_at)

/-- Insert `a` into `l` before the first element `b` with `le a b`. -/
def insertLe (le : α → α → Bool) (a : α) : List α → List α
  | [] => [a]
  | b :: bs => if le a b then a :: b :: bs else b :: insertLe le a bs

/-- Stable insertion sort with respect to the boolean relation `le`. -/
def sortByLe (le : α → α → Bool) : List α → List α
  | [] => []
  | a :: as => insertLe le a (sortByLe le as)

/-- The `ORDER BY` step of `get_expenses`: sort on the column found by
`getattrExpense`, descending when `sort_order.lower() == "desc"`,
ascending otherwise.  (When the attribute is not a column the handler
raises before sorting; this function is only consulted in the column
case and returns its input otherwise.) -/
def sortExpenses (attrs : ClassAttrs) (sort_by sort_order : String)
    (rows : List Expense) : List Expense :=
  match getattrExpense attrs sort_by with
  | .nonColumn => rows
  | .col c =>
    if pyLower sort_order = "desc" then sortByLe (fun a b => colLe c b a) rows
    else sortByLe (colLe c) rows

/-- `GET /expenses` (`get_expenses`).  FastAPI validates
`limit ∈ [1,1000]` (422 otherwise); the handler filters by category,
orders by `getattr(Expense, sort_by, Expense.date)` — raising an
unhandled `AttributeError` (500) when that attribute is not a column,
since only columns have `.desc()`/`.asc()` — then applies
`offset`/`limit`. -/
def get_expenses (attrs : ClassAttrs) (store : List Expense)
    (category : Option String) (limit offset : Nat)
    (sort_by sort_order : String) : Except ApiError (List Expense) :=
  if limit < 1 || 1000 < limit then .error .unprocessable
  else
    match applyCategoryFilter store category with
    | .error err => .error err
    | .ok filtered =>
      match getattrExpense attrs sort_by with
      | .nonColumn => .error .serverError
      | .col _ =>
        .ok (((sortExpenses attrs sort_by sort_order filtered).drop
          offset).take limit)

/-- `query.filter(Expense.id == expense_id).first()`. -/
def findExpense (store : List Expense) (eid : Int) : Option Expense :=
  (store.filter (fun e => (e.id : Int) = eid)).head?

/-- `GET /expenses/{expense_id}` (`get_expense`): 404 when absent. -/
def get_expense (store : List Expense) (eid : Int) : Except ApiError Expense :=
  match findExpense store eid with
  | none => .error .notFound
  | some e => .ok e

/-- Request body of `PUT /expenses/{expense_id}` (`ExpenseUpdate`): every
field optional; `amount` has `gt=0`, `description` has
`min_length=1, max_length=200` (again on the raw string); `category` is
unconstrained at the Pydantic level. -/
structure ExpenseUpdate where
  amount : Option ℚ
  description : Option String
  category : Option String
deriving DecidableEq, Repr

def validExpenseUpdate (u : ExpenseUpdate) : Bool :=
  (match u.amount with
   | some a => decide (0 < a)
   | none => true) &&
  (match u.description with
   | some d => decide (1 ≤ d.length) && decide (d.length ≤ 200)
   | none => true)

/-- Replace the first record with id `eid` (the object returned by
`.first()`, mutated in place and committed). -/
def replaceFirst (store : List Expense) (eid : Int) (e' : Expense) :
    List Expense :=
  match store with
  | [] => []
  | x :: xs =>
    if (x.id : Int) = eid then e' :: xs else x :: replaceFirst xs eid e'

/-- `PUT /expenses/{expense_id}` (`update_expense`).  Pydantic validates
the body (422); 404 when the id is absent.  The handler assigns
`amount`, then the stripped `description`, then checks the `category`
against `CATEGORIES`, raising 400 on failure — at which point nothing
has been committed, so the store is unchanged (the session is rolled
back on close).  On success the mutated row is committed. -/
def update_expense (store : List Expense) (eid : Int) (u : ExpenseUpdate) :
    Except ApiError (List Expense × Expense) :=
  if validExpenseUpdate u then
    match findExpense store eid with
    | none => .error .notFound
    | some e =>
      let e1 := match u.amount with
        | some a => { e with amount := a }
        | none => e
      let e2 := match u.description with
        | some d => { e1 with description := pyStrip d }
        | none => e1
      match u.category with
      | some c =>
        if c ∈ CATEGORIES then
          let e3 := { e2 with category := c }
          .ok (replaceFirst store eid e3, e3)
        else .error .badRequest
      | none => .ok (replaceFirst store eid e2, e2)
  else .error .unprocessable

/-- The committed store after an update call: unchanged when the handler
raises. -/
def updatedStore (store : List Expense) (eid : Int) (u : ExpenseUpdate) :
    List Expense :=
  match update_expense store eid u with
  | .ok (s, _) => s
  | .error _ => store

/-- `DELETE /expenses/{expense_id}` (`delete_expense`): 404 when absent,
otherwise remove the row. -/
def delete_expense (store : List Expense) (eid : Int) :
    Except ApiError (List Expense × String) :=
  match findExpense store eid with
  | none => .error .notFound
  | some _ =>
    .ok (store.filter (fun e => !((e.id : Int) = eid : Bool)),
         "Expense deleted successfully")

/-- Response body of `GET /expenses/total` (`TotalResponse`). -/
structure TotalResponse where
  total : ℚ
  count : Nat
  category : Option String
deriving DecidableEq, Repr

/-- `SELECT sum(amount) ... `: SQL `SUM` is `NULL` over zero rows, and the
handler coalesces falsy results (`result[0] if result[0] else 0.0`), so
`None` and `0.0` both become `0.0`. -/
def sqlSumAmounts (rows : List Expense) : ℚ :=
  match (if rows.isEmpty then none else some ((rows.map (·.amount)).sum)) with
  | none => 0
  | some v => if v = 0 then 0 else v

/-- The aggregate row of `get_total` over the already-filtered rows,
echoing the raw `category` query parameter in the response. -/
def mkTotal (rows : List Expense) (category : Option String) : TotalResponse :=
  { total := sqlSumAmounts rows
    count := if rows.length = 0 then 0 else rows.length
    category := category }

/-- `GET /expenses/total` handler body (`get_total`): filter by category
(same clause as `list`), then `SUM(amount)` and `COUNT(id)`. -/
def get_total (store : List Expense) (category : Option String) :
    Except ApiError TotalResponse :=
  match applyCategoryFilter store category with
  | .error err => .error err
  | .ok rows => .ok (mkTotal rows category)

/-- Python's built-in `round` to the nearest integer: ties go to the even
integer (banker's rounding).  Computed on the exact rational: with
`f = q.floor`, the fractional part `q - f` is `(q.num - f * q.den) / q.den`
with positive denominator, so comparing it against `1/2` is comparing
`2 * (q.num - f * q.den)` against `q.den`. -/
def pyRoundHalfEven (q : ℚ) : ℤ :=
  let f := q.floor
  let t := 2 * (q.num - f * (q.den : ℤ))
  if t < (q.den : ℤ) then f
  else if (q.den : ℤ) < t then f + 1
  else if f % 2 = 0 then f else f + 1

/-- Python's `round(q, 2)`. -/
def round2 (q : ℚ) : ℚ := (pyRoundHalfEven (q * 100) : ℚ) / 100

/-- One entry of `StatsResponse.categories` (`CategoryStats`). -/
structure CategoryStats where
  category : String
  total : ℚ
  count : Nat
  percentage : ℚ
deriving DecidableEq, Repr

/-- Response body of `GET /expenses/stats` (`StatsResponse`). -/
structure StatsResponse where
  total_amount : ℚ
  total_expenses : Nat
  categories : List CategoryStats
deriving DecidableEq, Repr

/-- The `GROUP BY category` aggregation of `get_stats`: one row per
distinct category present in the data (first-occurrence order), with the
sum and count of its rows. -/
def groupRows (store : List Expense) : List CategoryStats :=
  ((store.map (·.category)).dedup).map (fun c =>
    let rows := store.filter (fun e => e.category = c)
    let amount := (rows.map (·.amount)).sum
    let T := sqlSumAmounts store
    { category := c
      total := amount
      count := rows.length
      percentage :=
        round2 (if 0 < T then amount / T * 100 else 0) })

/-- `GET /expenses/stats` handler body (`get_stats`): grand total and
count with the same falsy coalescing as `get_total`, the per-category
breakdown, each entry's `percentage = round(amount/total_amount*100, 2)`
(0 when `total_amount` is not positive), sorted by descending `total`
(Python's stable `list.sort` with `reverse=True`). -/
def get_stats (store : List Expense) : StatsResponse :=
  { total_amount := sqlSumAmounts store
    total_expenses := store.length
    categories :=
      sortByLe (fun a b => decide (b.total ≤ a.total)) (groupRows store) }

/-- `DELETE /expenses` (`delete_all_expenses`).  The confirmation gate
comes first: without `confirm` the handler raises 400 before touching
the query, whatever the category.  Then the category clause as in
`list`, a count of the matching rows, and their deletion. -/
def delete_all_expenses (store : List Expense) (category : Option String)
    (confirm : Bool) : Except ApiError (List Expense × String × Nat) :=
  if !confirm then .error .badRequest
  else
    match category with
    | some c =>
      if categoryIsFilter c then
        if c ∈ CATEGORIES then
          .ok (store.filter (fun e => !(e.category = c : Bool)),
               "All " ++ c ++ " expenses deleted successfully",
               (store.filter (fun e => e.category = c)).length)
        else .error .badRequest
      else .ok ([], "All expenses deleted successfully", store.length)
    | none => .ok ([], "All expenses deleted successfully", store.length)

/-- The committed store after a `deleteAll` call: unchanged when the
handler raises. -/
def deleteAllStore (store : List Expense) (category : Option String)
    (confirm : Bool) : List Expense :=
  match delete_all_expenses store category confirm with
  | .ok (s, _, _) => s
  | .error _ => store

/-! ### Routing

Starlette (FastAPI's router) tries the registered routes in declaration
order and dispatches to the first whose path pattern matches.  A
`{param}` segment matches any single non-empty path segment; typed
validation of the captured value (`expense_id: int`) happens afterwards,
inside FastAPI, and a failure is a 422 response. -/

/-- Accumulator pass of decimal-digit parsing: `none` as soon as a
non-digit appears. -/
def digitsToNat? (cs : List Char) (acc : Nat) : Option Nat :=
  match cs with
  | [] => some acc
  | c :: rest =>
    if c.isDigit then digitsToNat? rest (acc * 10 + (c.toNat - 48))
    else none

/-- Parsing of a path parameter declared `int` (Python `int(str)` on an
optionally sign-prefixed decimal string): `none` means the value is not
an integer and FastAPI answers 422. -/
def parseIntString (s : String) : Option Int :=
  match s.toList with
  | [] => none
  | '-' :: rest =>
    match rest with
    | [] => none
    | _ => (digitsToNat? rest 0).map (fun n => -(n : Int))
  | cs => (digitsToNat? cs 0).map (fun n => (n : Int))

/-- A path-pattern segment: literal, or a `{param}` capture. -/
inductive RSeg where
  | lit (s : String)
  | param
deriving DecidableEq, Repr

/-- The handlers reachable by GET, in the file's declaration order. -/
inductive GetHandler where
  | rootInfo
  | categories
  | listExpenses
  | getOne
  | total
  | stats
deriving DecidableEq, Repr

/-- The GET routes of `main.py` in declaration order: `/` (line 102),
`/categories` (106), `/expenses` (132), `/expenses/{expense_id}` (165),
`/expenses/total` (214), `/expenses/stats` (236). -/
def getRoutes : List (List RSeg × GetHandler) :=
  [([], .rootInfo),
   ([.lit "categories"], .categories),
   ([.lit "expenses"], .listExpenses),
   ([.lit "expenses", .param], .getOne),
   ([.lit "expenses", .lit "total"], .total),
   ([.lit "expenses", .lit "stats"], .stats)]

/-- Does a pattern match a concrete path (list of non-empty segments)? -/
def matchSegs : List RSeg → List String → Bool
  | [], [] => true
  | .lit s :: ps, x :: xs => s = x && matchSegs ps xs
  | .param :: ps, _ :: xs => matchSegs ps xs
  | _, _ => false

/-- First-match route resolution, as Starlette performs it. -/
def firstMatch (routes : List (List RSeg × GetHandler)) (path : List String) :
    Option GetHandler :=
  match routes with
  | [] => none
  | (p, h) :: rest =>
    if matchSegs p path then some h else firstMatch rest path

/-- A successful GET response body. -/
inductive GetResponse where
  | info
  | cats (l : List String)
  | many (l : List Expense)
  | one (e : Expense)
  | tot (t : TotalResponse)
  | st (s : StatsResponse)
deriving DecidableEq, Repr

/-- Dispatch of a GET request with no query parameters (all query
parameters at their defaults) against the app's route table.  For the
`/expenses/{expense_id}` route, FastAPI parses the captured segment as
an `int` and answers 422 when that fails. -/
def dispatchGet (attrs : ClassAttrs) (store : List Expense)
    (path : List String) : Except ApiError GetResponse :=
  match firstMatch getRoutes path with
  | none => .error .notFound
  | some .rootInfo => .ok .info
  | some .categories => .ok (.cats CATEGORIES)
  | some .listExpenses =>
    (get_expenses attrs store none 100 0 "date" "desc").map .many
  | some .getOne =>
    match path with
    | [_, seg] =>
      match parseIntString seg with
      | none => .error .unprocessable
      | some i => (get_expense store i).map .one
    | _ => .error .serverError
  | some .total => (get_total store none).map .tot
  | some .stats => .ok (.st (get_stats store))

/-! ### Concrete fixtures for witnesses and counterexamples -/

/-- A stored Food expense of amount 10. -/
def exA : Expense := ⟨1, 10, "a", "Food", 0, 0⟩

/-- A stored Food expense of amount 5. -/
def exB : Expense := ⟨2, 5, "b", "Food", 1, 1⟩

/-- A stored Bills expense of amount 15. -/
def exC : Expense := ⟨3, 15, "c", "Bills", 2, 2⟩

/-- `exA` after an update setting only `amount := 7`. -/
def exAupd : Expense := ⟨1, 7, "a", "Food", 0, 0⟩

/-- The Food entry of `get_stats [exA, exB, exC]`. -/
def statsFood : CategoryStats := ⟨"Food", 15, 2, 50⟩

/-- The record stored by a create whose description is the single space. -/
def expWs : Expense := ⟨1, 1, "", "Food", 0, 0⟩

/-- A concrete attribute-set instance for witnesses and counterexamples:
just the non-column attributes visible in the source file itself
(`__tablename__` from the class body, `metadata` used on the base at
line 30). -/
def exAttrs : ClassAttrs :=
  ⟨fun n => n = "__tablename__" || n = "metadata", rfl⟩

end ExpenseTracker

namespace ExpenseTracker

/-! ### Helper lemmas -/

/-- C3: `deleteAll` called without `confirm = true` fails with the
400 "confirmation required" error and leaves the committed store
unchanged (zero records deleted), for every category argument —
the confirmation gate is checked before the category is even looked
at. -/
theorem deleteAll_without_confirm_fails (store : List Expense)
    (category : Option String) :
    delete_all_expenses store category false = .error .badRequest
    ∧ deleteAllStore store category false = store :=
  ⟨rfl, rfl⟩

/-- C2: the total endpoint is unreachable.  Starlette matches routes in
declaration order, and `GET /expenses/{expense_id}` is declared before
`GET /expenses/total`, so a request for `/expenses/total` is dispatched
to `get_expense` with `expense_id = "total"`; parsing that as an `int`
fails, so the API answers 422 for every store — never the claimed 200
`{total, count, category}` body. -/
theorem total_route_shadowed :
    firstMatch getRoutes ["expenses", "total"] = some GetHandler.getOne
    ∧ ∀ (attrs : ClassAttrs) (store : List Expense),
        dispatchGet attrs store ["expenses", "total"]
          = .error .unprocessable :=
  ⟨rfl, fun _ _ => rfl⟩

/-- C1 counterexample: the create request with `amount = 1`,
`description = " "` (a single space, so whitespace-only) and
`category = "Food"` passes Pydantic validation — `min_length=1` is
checked on the raw string, before `.strip()` — and a record whose
description is the empty string is stored.  The claim says every such
request fails with a validation error and stores nothing. -/
theorem create_whitespace_description_accepted :
    (" ").toList.all isPySpace = true
    ∧ create_expense [] 0 ⟨1, " ", "Food"⟩ = .ok ([expWs], expWs)
    ∧ expWs.description = "" :=
  ⟨rfl, rfl, rfl⟩

/-- C1 (amended): a create request whose description is the empty
string fails with a request-validation error and stores nothing;
whitespace-only descriptions of raw length 1–200 instead pass
validation and are stored with the description stripped to the empty
string. -/
theorem create_empty_description_rejected (store : List Expense) (now : Nat)
    (req : ExpenseCreate) (h : req.description = "") :
    create_expense store now req = .error .unprocessable
    ∧ createdStore store now req = store := by
  have hv : validExpenseCreate req = false := by
    unfold validExpenseCreate
    simp [h]
  have h1 : create_expense store now req = .error .unprocessable := by
    simp [create_expense, hv]
  exact ⟨h1, by simp [createdStore, h1]⟩

theorem create_empty_description_rejected_witness :
    create_expense [] 0 ⟨1, "", "Food"⟩ = .error .unprocessable
    ∧ createdStore [] 0 ⟨1, "", "Food"⟩ = [] :=
  create_empty_description_rejected [] 0 ⟨1, "", "Food"⟩ rfl

/-- C9: every successful create returns a record with a positive id,
the request's `amount` and `category`, the stripped `description`, and
`date` equal to `created_at` (both columns take their defaults at the
same insert). -/
theorem create_valid_fields (store : List Expense) (now : Nat)
    (req : ExpenseCreate) (st' : List Expense) (e : Expense)
    (h : create_expense store now req = .ok (st', e)) :
    0 < e.id ∧ e.amount = req.amount ∧ e.category = req.category
    ∧ e.description = pyStrip req.description ∧ e.date = e.created_at := by
  unfold create_expense at h
  split at h
  · split at h
    · simp only [Except.ok.injEq, Prod.mk.injEq] at h
      obtain ⟨-, h2⟩ := h
      subst h2
      refine ⟨?_, rfl, rfl, rfl, rfl⟩
      show 0 < nextId store
      unfold nextId
      omega
    · exact Except.noConfusion h
  · exact Except.noConfusion h

theorem create_valid_fields_witness :
    0 < exA.id ∧ exA.amount = (10 : ℚ) ∧ exA.category = "Food"
    ∧ exA.description = pyStrip " a " ∧ exA.date = exA.created_at :=
  create_valid_fields [] 0 ⟨10, " a ", "Food"⟩ [exA] exA rfl

/-- C8 counterexample: `"__tablename__"` is not one of the entity's six
fields, yet `list` with `sort_by = "__tablename__"` does not fall back
to sorting by date — `getattr(Expense, "__tablename__", Expense.date)`
finds the string assigned in the class body, `.desc()` on it raises an
unhandled `AttributeError`, and the request is a 500 server error (here
at a concrete attribute-set instance; every `ClassAttrs` contains
`__tablename__` by construction).  A name that is not a class attribute
at all (here `"bogus"`) does silently fall back and succeed. -/
theorem sort_by_tablename_is_error :
    "__tablename__" ∉ expenseColumnNames
    ∧ get_expenses exAttrs [exA] none 100 0 "__tablename__" "desc"
        = .error .serverError
    ∧ get_expenses exAttrs [exA] none 100 0 "bogus" "desc" = .ok [exA] :=
  ⟨by decide, rfl, rfl⟩

/-- C8 (amended): for every admissible attribute set of the `Expense`
class (any `ClassAttrs`), a `sort_by` value that is not an attribute of
the class at all — not a mapped column name and not one of its other
attributes — makes `list` behave exactly as `sort_by = "date"` (silent
fallback, not an error); but a `sort_by` naming a non-column class
attribute such as `__tablename__` is a 500 server error, not a
fallback. -/
theorem sort_unknown_name_falls_back_to_date (attrs : ClassAttrs)
    (store : List Expense) (category : Option String) (limit offset : Nat)
    (sb so : String)
    (h1 : sb ∉ expenseColumnNames)
    (h2 : attrs.nonColumn sb = false) :
    get_expenses attrs store category limit offset sb so
      = get_expenses attrs store category limit offset "date" so := by
  simp only [expenseColumnNames, List.mem_cons, List.not_mem_nil, or_false,
    not_or] at h1
  obtain ⟨n1, n2, n3, n4, n5, n6⟩ := h1
  have hdate : getattrExpense attrs "date" = SortAttr.col SortColumn.date :=
    rfl
  have hcol : getattrExpense attrs sb = .col .date := by
    simp [getattrExpense, n1, n2, n3, n4, n5, n6, h2]
  have hsort : sortExpenses attrs sb so = sortExpenses attrs "date" so := by
    funext rows
    unfold sortExpenses
    rw [hcol, hdate]
  unfold get_expenses
  rw [hcol, hdate, hsort]

theorem sort_unknown_name_falls_back_to_date_witness :
    get_expenses exAttrs [exA, exC] none 100 0 "bogus" "asc"
      = get_expenses exAttrs [exA, exC] none 100 0 "date" "asc" :=
  sort_unknown_name_falls_back_to_date exAttrs [exA, exC] none 100 0
    "bogus" "asc" (by decide) rfl

/-- C4: every successful `list` call with `limit ∈ [1,1000]` returns at
most `limit` records, and its result is exactly the category-filtered
store, sorted, with `offset` records skipped and then at most `limit`
taken (filter → sort → skip → take). -/
theorem list_pagination (attrs : ClassAttrs) (store : List Expense)
    (category : Option String) (limit offset : Nat) (sb so : String)
    (xs : List Expense)
    (h1 : 1 ≤ limit) (h2 : limit ≤ 1000)
    (h : get_expenses attrs store category limit offset sb so = .ok xs) :
    xs.length ≤ limit
    ∧ ∃ filtered, applyCategoryFilter store category = .ok filtered
        ∧ xs = ((sortExpenses attrs sb so filtered).drop offset).take
            limit := by
  unfold get_expenses at h
  split at h
  · exact Except.noConfusion h
  · cases hf : applyCategoryFilter store category with
    | error err => rw [hf] at h; exact Except.noConfusion h
    | ok filtered =>
      rw [hf] at h
      cases hg : getattrExpense attrs sb with
      | nonColumn => rw [hg] at h; exact Except.noConfusion h
      | col col =>
        rw [hg] at h
        simp only [Except.ok.injEq] at h
        subst h
        refine ⟨?_, filtered, rfl, rfl⟩
        rw [List.length_take]
        omega

theorem list_pagination_witness :
    ([exA, exC] : List Expense).length ≤ 2
    ∧ ∃ filtered, applyCategoryFilter [exA, exB, exC] none = .ok filtered
        ∧ [exA, exC]
            = ((sortExpenses exAttrs "amount" "asc" filtered).drop 1).take
                2 :=
  list_pagination exAttrs [exA, exB, exC] none 2 1 "amount" "asc" [exA, exC]
    (by decide) (by decide) rfl

/-- C5: a successful partial update of an existing record changes
exactly the supplied fields — a supplied `amount` or `category` is taken
as given, a supplied `description` is stored stripped — every omitted
field keeps its prior value, and `id`, `date` and `created_at` are never
modified. -/
theorem update_partial_frame (store : List Expense) (eid : Int)
    (u : ExpenseUpdate) (st' : List Expense) (e' e : Expense)
    (hfind : findExpense store eid = some e)
    (h : update_expense store eid u = .ok (st', e')) :
    e'.id = e.id ∧ e'.date = e.date ∧ e'.created_at = e.created_at
    ∧ (u.amount = none → e'.amount = e.amount)
    ∧ (u.description = none → e'.description = e.description)
    ∧ (u.category = none → e'.category = e.category)
    ∧ (∀ a, u.amount = some a → e'.amount = a)
    ∧ (∀ d, u.description = some d → e'.description = pyStrip d)
    ∧ (∀ c, u.category = some c → e'.category = c) := by
  unfold update_expense at h
  split at h
  · rw [hfind] at h
    rcases u with ⟨ua, ud, uc⟩
    rcases ua with _ | a <;> rcases ud with _ | d <;> rcases uc with _ | c <;>
      dsimp only at h
    all_goals try split at h
    all_goals try exact Except.noConfusion h
    all_goals simp only [Except.ok.injEq, Prod.mk.injEq] at h
    all_goals obtain ⟨-, h2⟩ := h
    all_goals subst h2
    all_goals simp
  · exact Except.noConfusion h

theorem update_partial_frame_witness :
    exAupd.id = exA.id ∧ exAupd.date = exA.date
    ∧ exAupd.created_at = exA.created_at
    ∧ ((⟨some 7, none, none⟩ : ExpenseUpdate).amount = none →
        exAupd.amount = exA.amount)
    ∧ ((⟨some 7, none, none⟩ : ExpenseUpdate).description = none →
        exAupd.description = exA.description)
    ∧ ((⟨some 7, none, none⟩ : ExpenseUpdate).category = none →
        exAupd.category = exA.category)
    ∧ (∀ a, (⟨some 7, none, none⟩ : ExpenseUpdate).amount = some a →
        exAupd.amount = a)
    ∧ (∀ d, (⟨some 7, none, none⟩ : ExpenseUpdate).description = some d →
        exAupd.description = pyStrip d)
    ∧ (∀ c, (⟨some 7, none, none⟩ : ExpenseUpdate).category = some c →
        exAupd.category = c) :=
  update_partial_frame [exA, exB] 1 ⟨some 7, none, none⟩ [exAupd, exB]
    exAupd exA rfl rfl

/-- C10: an update of an existing record that supplies a category
outside `CATEGORIES` — even alongside valid `amount` and `description`
values — fails with the 400 invalid-category error and commits nothing:
the handler raises before `db.commit()`, the session is rolled back on
close, and the stored record keeps all its prior values (no partial
application of the supplied `amount`/`description`). -/
theorem update_invalid_category_atomic (store : List Expense) (eid : Int)
    (u : ExpenseUpdate) (c : String) (e : Expense)
    (hv : validExpenseUpdate u = true)
    (hfind : findExpense store eid = some e)
    (hc : u.category = some c) (hbad : c ∉ CATEGORIES) :
    update_expense store eid u = .error .badRequest
    ∧ updatedStore store eid u = store := by
  have h1 : update_expense store eid u = .error .badRequest := by
    unfold update_expense
    rw [if_pos hv, hfind]
    dsimp only
    rw [hc]
    dsimp only
    rw [if_neg hbad]
  exact ⟨h1, by simp [updatedStore, h1]⟩

theorem update_invalid_category_atomic_witness :
    update_expense [exA] 1 ⟨some 2, some "ok", some "Nope"⟩
      = .error .badRequest
    ∧ updatedStore [exA] 1 ⟨some 2, some "ok", some "Nope"⟩ = [exA] :=
  update_invalid_category_atomic [exA] 1 ⟨some 2, some "ok", some "Nope"⟩
    "Nope" exA rfl rfl rfl (by decide)

end ExpenseTracker
